import Mathlib

/-!
Verification of the `wordlistdawg` repository against its specification.

The repository has two relevant source files:
- `src/dict.ts`: the runtime query module. Module-level mutable state is the
  pair `(trie, loadPromise)`; the exported operations are `normalizeWord`,
  `loadDictionary`, `isWord`, `isPrefix`.
- `scripts/build_dawg.mjs`: the build script, containing the validator
  `assertSortedUnique`.

JavaScript strings are modelled as lists of Unicode code points (`List Nat`).
The actual trie implementation lives in the external `dawg-lookup` npm
package, which is not part of this repository; the query module itself only
interacts with it through the duck-typed `TrieLike` surface (`isWord`
required; `isPrefix`, `hasPrefix`, `completions` optional), which is modelled
as a structure of (optional) functions.  The JavaScript runtime's
`String.prototype.toUpperCase` Unicode case-mapping table is likewise
external to the repository, so `normalizeWord` is parameterised by an
uppercasing map `upper : Nat → List Nat` (a single code point may uppercase
to several, e.g. ß → SS); `asciiUpper` is the concrete ASCII fragment of the
table, used for concrete evaluations at ASCII inputs where the full table
agrees with it.
-/

namespace WordlistDawg

/-- A JavaScript string, as a list of Unicode code points. -/
abbrev JStr := List Nat

/-- The test of the regex character class `[A-Z]` used in `normalizeWord`. -/
def isUpperAlpha (c : Nat) : Bool := 65 ≤ c && c ≤ 90

/-- The ASCII fragment of the JS `toUpperCase` case-mapping table: lowercase
`a`–`z` map to `A`–`Z`, everything else in ASCII is unchanged. -/
def asciiUpper (c : Nat) : List Nat := if 97 ≤ c && c ≤ 122 then [c - 32] else [c]

/-- `normalizeWord` from `src/dict.ts`:
`input.toUpperCase().replace(/[^A-Z]/gu, "")`, with the runtime's
`toUpperCase` table passed in as `upper`. -/
def normalizeWord (upper : Nat → List Nat) (input : JStr) : JStr :=
  (input.flatMap upper).filter isUpperAlpha

/-- The duck-typed surface of a loaded trie (`TrieLike` in `src/dict.ts`):
`isWord` is required, the three prefix-query methods are optional. -/
structure TrieLike where
  isWordFn : JStr → Bool
  isPrefixFn : Option (JStr → Bool)
  hasPrefixFn : Option (JStr → Bool)
  completionsFn : Option (JStr → Option Nat → List JStr)

/-- The errors `src/dict.ts` can raise (each a `new Error(...)` with the
given message in the source). -/
inductive DictError where
  /-- "Dictionary not loaded. Call loadDictionary() first." -/
  | notLoaded
  /-- "Loaded DAWG trie does not expose a prefix lookup method." -/
  | noPrefixLookup
  /-- "Failed to load dictionary metadata from ⟨url⟩: ⟨status⟩" -/
  | metaFetchFailed (url : String) (status : Nat)
  /-- "Failed to load dictionary data from ⟨url⟩: ⟨status⟩" -/
  | dawgFetchFailed (url : String) (status : Nat)
  /-- "Unable to resolve PTrie constructor from dawg-lookup/lib/ptrie." -/
  | ctorUnresolved
  deriving DecidableEq, Repr

/-- The module-level mutable state of `src/dict.ts`: the two `let` bindings
`trie : TrieLike | null` and `loadPromise : Promise<void> | null`.  An
in-flight promise is identified by a `Nat` tag. -/
structure DictState where
  trie : Option TrieLike
  loadPromise : Option Nat

/-- `ensureLoaded` from `src/dict.ts`: throws if `trie` is null. -/
def ensureLoaded (st : DictState) : Except DictError TrieLike :=
  match st.trie with
  | none => Except.error DictError.notLoaded
  | some t => Except.ok t

/-- `isWord` from `src/dict.ts`.  Returns the result (or error) together
with the module state after the call. -/
def isWord (upper : Nat → List Nat) (st : DictState) (word : JStr) :
    Except DictError Bool × DictState :=
  let normalized := normalizeWord upper word
  if normalized.isEmpty then (Except.ok false, st)
  else
    match ensureLoaded st with
    | Except.error e => (Except.error e, st)
    | Except.ok t => (Except.ok (t.isWordFn normalized), st)

/-- `isPrefix` from `src/dict.ts`, with the duck-typed fallback chain
`isPrefix` → `hasPrefix` → `completions(·, 1).length > 0` → throw. -/
def isPrefix (upper : Nat → List Nat) (st : DictState) (pre : JStr) :
    Except DictError Bool × DictState :=
  let normalized := normalizeWord upper pre
  if normalized.isEmpty then (Except.ok false, st)
  else
    match ensureLoaded st with
    | Except.error e => (Except.error e, st)
    | Except.ok t =>
      match t.isPrefixFn with
      | some f => (Except.ok (f normalized), st)
      | none =>
        match t.hasPrefixFn with
        | some f => (Except.ok (f normalized), st)
        | none =>
          match t.completionsFn with
          | some f => (Except.ok (decide (0 < (f normalized (some 1)).length)), st)
          | none => (Except.error DictError.noPrefixLookup, st)

/-- The test `/^https?:\/\//u.test(dawgFile)` of `resolveAssetUrl`. -/
def isHttpUrl (s : String) : Bool :=
  s.startsWith "http://" || s.startsWith "https://"

/-- `resolveAssetUrl` from `src/dict.ts`.  The browser `URL` constructor is
external; it enters as `urlJoin` (given the meta URL and the relative file,
produce the absolute URL), and `windowPresent` models
`typeof window !== "undefined"`. -/
def resolveAssetUrl (urlJoin : String → String → String) (windowPresent : Bool)
    (metaUrl dawgFile : String) : String :=
  if isHttpUrl dawgFile then dawgFile
  else if windowPresent then urlJoin metaUrl dawgFile
  else dawgFile

/-- The external world as observed by one run of `loadDictionary`'s async
body: the two `fetch` responses, the JSON metadata's `artifacts.dawgFile`
field, the packed text payload, whether the `PTrie` constructor resolves,
and what `new PTrie(packed)` builds. -/
structure LoadEnv where
  metaOk : Bool
  metaStatus : Nat
  metaDawgFile : Option String
  dawgOk : Bool
  dawgStatus : Nat
  dawgText : String
  ctorResolved : Bool
  makeTrie : String → TrieLike
  windowPresent : Bool
  urlJoin : String → String → String

/-- The async body of `loadDictionary` (the IIFE assigned to `loadPromise`):
fetch the metadata, resolve and fetch the artifact, resolve the constructor,
build the trie.  Also counts the `fetch` calls performed. -/
def loadBody (env : LoadEnv) (metaUrl : String) : Except DictError TrieLike × Nat :=
  if env.metaOk = false then
    (Except.error (DictError.metaFetchFailed metaUrl env.metaStatus), 1)
  else
    let dawgFile := env.metaDawgFile.getD "dict.dawg"
    let dawgUrl := resolveAssetUrl env.urlJoin env.windowPresent metaUrl dawgFile
    if env.dawgOk = false then
      (Except.error (DictError.dawgFetchFailed dawgUrl env.dawgStatus), 2)
    else if env.ctorResolved = false then
      (Except.error DictError.ctorUnresolved, 2)
    else (Except.ok (env.makeTrie env.dawgText), 2)

/-- What one call to `loadDictionary` did. -/
inductive LoadOutcome where
  /-- `if (trie) return;` — already loaded, returned immediately. -/
  | alreadyLoaded
  /-- `if (loadPromise) return loadPromise;` — returned the in-flight
  promise with tag `p`. -/
  | joined (p : Nat)
  /-- Ran the async body to completion with the given result. -/
  | completed (r : Except DictError Unit)
  deriving Repr

/-- The observable of one `loadDictionary` call: its outcome and how many
`fetch` calls it performed. -/
structure LoadCall where
  outcome : LoadOutcome
  fetches : Nat
  deriving Repr

/-- `loadDictionary` from `src/dict.ts`, as a state transformer.  The two
guards run first; otherwise the body runs, and the `try { await loadPromise }
finally { loadPromise = null }` clears the in-flight marker whether the body
succeeded or threw (the intermediate state in which `loadPromise` is set is
internal to the call in this sequential model). -/
def loadDictionary (env : LoadEnv) (metaUrl : String) (st : DictState) :
    LoadCall × DictState :=
  match st.trie with
  | some _ => (⟨LoadOutcome.alreadyLoaded, 0⟩, st)
  | none =>
    match st.loadPromise with
    | some p => (⟨LoadOutcome.joined p, 0⟩, st)
    | none =>
      match loadBody env metaUrl with
      | (Except.ok t, n) =>
        (⟨LoadOutcome.completed (Except.ok ()), n⟩, { trie := some t, loadPromise := none })
      | (Except.error e, n) =>
        (⟨LoadOutcome.completed (Except.error e), n⟩, { trie := none, loadPromise := none })

/-- JavaScript `<` on strings: lexicographic comparison by code unit, a
proper prefix being smaller. -/
def ltStr : JStr → JStr → Bool
  | [], [] => false
  | [], _ :: _ => true
  | _ :: _, [] => false
  | a :: as, b :: bs => if a < b then true else if b < a then false else ltStr as bs

/-- The error thrown by `assertSortedUnique` in `scripts/build_dawg.mjs`:
"words.txt must be strictly sorted and unique. Index ⟨idx⟩='⟨prev⟩',
⟨idx+1⟩='⟨cur⟩'". -/
structure ValidationError where
  idx : Nat
  prev : JStr
  cur : JStr
  deriving DecidableEq, Repr

/-- The loop of `assertSortedUnique` from index `i` with `prev = words[i-1]`:
`if (words[i-1] >= words[i]) throw` — JS `a >= b` on strings is `¬(a < b)`. -/
def checkFrom (i : Nat) (prev : JStr) : List JStr → Except ValidationError Unit
  | [] => Except.ok ()
  | w :: ws =>
    if ltStr prev w then checkFrom (i + 1) w ws
    else Except.error ⟨i - 1, prev, w⟩

/-- `assertSortedUnique` from `scripts/build_dawg.mjs`: the loop runs for
`i` from 1 to `words.length - 1`. -/
def assertSortedUnique : List JStr → Except ValidationError Unit
  | [] => Except.ok ()
  | w :: ws => checkFrom 1 w ws

/-- The strictly-increasing-adjacent-pairs property the validator enforces. -/
def StrictSorted (ws : List JStr) : Prop :=
  List.Chain' (fun a b => ltStr a b = true) ws

/-- A trie over W = ["A","AN","AND","ANT"] (code points: A=65, N=78, D=68,
T=84), exposing `isPrefix`; used for concrete evaluations. -/
def wordsW : List JStr := [[65], [65, 78], [65, 78, 68], [65, 78, 84]]

/-- Concrete `TrieLike` for `wordsW`. -/
def trieW : TrieLike where
  isWordFn := fun s => wordsW.contains s
  isPrefixFn := some (fun s => wordsW.any (fun w => s.isPrefixOf w))
  hasPrefixFn := none
  completionsFn := none

/-- The module state after a successful load of `trieW`. -/
def stW : DictState := { trie := some trieW, loadPromise := none }

/-- The module state before any load (both module variables null). -/
def st0 : DictState := { trie := none, loadPromise := none }

/-- A loaded trie exposing only `isWord` — permitted by the `TrieLike`
surface — on which the `isPrefix` fallback chain bottoms out. -/
def trieNoPre : TrieLike where
  isWordFn := fun _ => false
  isPrefixFn := none
  hasPrefixFn := none
  completionsFn := none

/-- Module state holding `trieNoPre`. -/
def stNoPre : DictState := { trie := some trieNoPre, loadPromise := none }

/-- An environment whose metadata fetch fails with HTTP 500. -/
def envFailMeta : LoadEnv where
  metaOk := false
  metaStatus := 500
  metaDawgFile := none
  dawgOk := true
  dawgStatus := 200
  dawgText := ""
  ctorResolved := true
  makeTrie := fun _ => trieNoPre
  windowPresent := false
  urlJoin := fun _ f => f

/-- An environment in which every step succeeds, building `trieW`. -/
def envOk : LoadEnv where
  metaOk := true
  metaStatus := 200
  metaDawgFile := some "dict.dawg"
  dawgOk := true
  dawgStatus := 200
  dawgText := "packed"
  ctorResolved := true
  makeTrie := fun _ => trieW
  windowPresent := false
  urlJoin := fun _ f => f

/-! ## Helper lemmas -/

theorem flatMap_eq_self_of_fixed (upper : Nat → List Nat) :
    ∀ l : List Nat, (∀ c ∈ l, upper c = [c]) → l.flatMap upper = l := by
  intro l h
  induction l with
  | nil => rfl
  | cons a l ih =>
    rw [List.flatMap_cons, h a (by simp), ih (fun c hc => h c (by simp [hc]))]
    rfl

/-! ## Claims about the query module -/

/-- C1 (amended): `isPrefix` applied to the empty string returns `false`
even on a loaded, non-empty dictionary: the wrapper returns `false` for any
input whose normalized form is empty, before consulting the trie. -/
theorem isPrefix_empty_false (upper : Nat → List Nat) (st : DictState) :
    isPrefix upper st [] = (Except.ok false, st) := rfl

/-- C1 counterexample: with the dictionary loaded from
W = ["A","AN","AND","ANT"] (a non-empty automaton), `isPrefix ""` evaluates
to `ok false`, not `ok true` as the claim states. -/
theorem isPrefix_empty_loaded_cex :
    stW.trie.isSome = true ∧ (isPrefix asciiUpper stW []).1 = Except.ok false :=
  ⟨rfl, rfl⟩

/-- C2 (amended): before a load has completed (`trie` null), `isWord` and
`isPrefix` signal the "Dictionary not loaded" error exactly when the input's
normalized form is non-empty; an input whose normalized form is empty (such
as "" or "123") returns `false` without checking the loaded state. -/
theorem unloaded_query_notLoaded (upper : Nat → List Nat) (st : DictState) (s : JStr)
    (hs : st.trie = none) :
    (normalizeWord upper s ≠ [] →
      (isWord upper st s).1 = Except.error DictError.notLoaded ∧
      (isPrefix upper st s).1 = Except.error DictError.notLoaded) ∧
    (normalizeWord upper s = [] →
      (isWord upper st s).1 = Except.ok false ∧
      (isPrefix upper st s).1 = Except.ok false) := by
  cases hv : normalizeWord upper s with
  | nil =>
    refine ⟨fun h => absurd rfl h, fun _ => ?_⟩
    exact ⟨by simp [isWord, hv], by simp [isPrefix, hv]⟩
  | cons a l =>
    refine ⟨fun _ => ?_, fun h => absurd h (by simp)⟩
    exact ⟨by simp [isWord, ensureLoaded, hv, hs], by simp [isPrefix, ensureLoaded, hv, hs]⟩

/-- C2 witness: in the never-loaded state, the query "A" signals the
not-loaded error through both operations. -/
theorem unloaded_query_notLoaded_witness :
    (isWord asciiUpper st0 [65]).1 = Except.error DictError.notLoaded ∧
    (isPrefix asciiUpper st0 [65]).1 = Except.error DictError.notLoaded :=
  (unloaded_query_notLoaded asciiUpper st0 [65] rfl).1 (by decide)

/-- C2 counterexample: before any load, `isWord "123"` and `isPrefix "123"`
(normalized form empty) return `ok false` instead of signalling the
"Dictionary not loaded" error the claim requires. -/
theorem unloaded_empty_norm_cex :
    st0.trie = none ∧
    (isWord asciiUpper st0 [49, 50, 51]).1 = Except.ok false ∧
    (isPrefix asciiUpper st0 [49, 50, 51]).1 = Except.ok false :=
  ⟨rfl, rfl, rfl⟩

/-- C3 (amended): on a loaded dictionary `isWord` never signals an error,
and the only error `isPrefix` can signal is the "Loaded DAWG trie does not
expose a prefix lookup method" error (raised when the loaded trie exposes
none of `isPrefix`, `hasPrefix`, `completions`) — not `NotLoadedError`
alone, as the claim states. -/
theorem loaded_query_errors (upper : Nat → List Nat) (st : DictState) (t : TrieLike)
    (s : JStr) (ht : st.trie = some t) :
    (∀ e, (isWord upper st s).1 ≠ Except.error e) ∧
    (∀ e, (isPrefix upper st s).1 = Except.error e → e = DictError.noPrefixLookup) := by
  cases hv : normalizeWord upper s with
  | nil => exact ⟨fun e => by simp [isWord, hv], fun e h => by simp [isPrefix, hv] at h⟩
  | cons a l =>
    refine ⟨fun e => by simp [isWord, ensureLoaded, hv, ht], fun e => ?_⟩
    rcases t with ⟨iw, ipf, hpf, cf⟩
    cases ipf <;> cases hpf <;> cases cf <;> simp [isPrefix, ensureLoaded, hv, ht]
    intro h
    simp [h]

/-- C3 witness: on the dictionary loaded from W, the query "A" neither
fails in `isWord` nor yields `NotLoadedError` from `isPrefix`. -/
theorem loaded_query_errors_witness :
    (isWord asciiUpper stW [65]).1 ≠ Except.error DictError.notLoaded ∧
    ((isPrefix asciiUpper stW [65]).1 = Except.error DictError.notLoaded →
      DictError.notLoaded = DictError.noPrefixLookup) :=
  ⟨(loaded_query_errors asciiUpper stW trieW [65] rfl).1 DictError.notLoaded,
   (loaded_query_errors asciiUpper stW trieW [65] rfl).2 DictError.notLoaded⟩

/-- C3 counterexample: a loaded trie exposing none of the three prefix
methods makes `isPrefix "A"` raise the "does not expose a prefix lookup
method" error, which is distinct from `NotLoadedError` — so `NotLoadedError`
is not the only error the query engine raises. -/
theorem isPrefix_noPrefixLookup_cex :
    stNoPre.trie.isSome = true ∧
    (isPrefix asciiUpper stNoPre [65]).1 = Except.error DictError.noPrefixLookup ∧
    DictError.noPrefixLookup ≠ DictError.notLoaded :=
  ⟨rfl, rfl, by decide⟩

/-- C5 (amended): `isWord` re-normalizes its input: on a loaded dictionary
and an input with non-empty normalized form, the trie is queried with
`normalizeWord s`, not with `s` as given. -/
theorem isWord_queries_normalized (upper : Nat → List Nat) (st : DictState) (t : TrieLike)
    (w : JStr) (ht : st.trie = some t) (hn : normalizeWord upper w ≠ []) :
    isWord upper st w = (Except.ok (t.isWordFn (normalizeWord upper w)), st) := by
  cases hv : normalizeWord upper w with
  | nil => exact absurd hv hn
  | cons a l => simp [isWord, ensureLoaded, hv, ht]

/-- C5 witness: on the dictionary loaded from W, `isWord "an"` is answered
by the trie on the normalized string. -/
theorem isWord_queries_normalized_witness :
    isWord asciiUpper stW [97, 110] =
      (Except.ok (trieW.isWordFn (normalizeWord asciiUpper [97, 110])), stW) :=
  isWord_queries_normalized asciiUpper stW trieW [97, 110] rfl (by decide)

/-- C5 counterexample: with the dictionary loaded from W, `isWord "and"`
(code points [97,110,100]) returns `ok true` although the trie's own
`isWord` rejects the string [97,110,100] as given — so the automaton was
not traversed with exactly the input string. -/
theorem isWord_renormalizes_cex :
    (isWord asciiUpper stW [97, 110, 100]).1 = Except.ok true ∧
    trieW.isWordFn [97, 110, 100] = false :=
  ⟨rfl, rfl⟩

/-- C9: `isWord` and `isPrefix` are side-effect-free: for every module
state and every input, the state after the call (the `trie` handle and the
`loadPromise` marker) equals the state before, whether the call returns a
Boolean or signals an error. -/
theorem queries_preserve_state (upper : Nat → List Nat) (st : DictState) (s : JStr) :
    (isWord upper st s).2 = st ∧ (isPrefix upper st s).2 = st := by
  rcases st with ⟨tr, lp⟩
  cases hv : normalizeWord upper s with
  | nil => exact ⟨by simp [isWord, hv], by simp [isPrefix, hv]⟩
  | cons a l =>
    cases tr with
    | none => exact ⟨by simp [isWord, ensureLoaded, hv], by simp [isPrefix, ensureLoaded, hv]⟩
    | some t =>
      rcases t with ⟨iw, ipf, hpf, cf⟩
      refine ⟨by simp [isWord, ensureLoaded, hv], ?_⟩
      cases ipf <;> cases hpf <;> cases cf <;> simp [isPrefix, ensureLoaded, hv]

/-- C10: every character of `normalizeWord s` lies in A–Z, and
`normalizeWord` is idempotent.  The JS `toUpperCase` table enters as the
hypothesis that it fixes the uppercase letters A–Z (true of the Unicode
case mapping). -/
theorem normalizeWord_alphabet_idem (upper : Nat → List Nat) (s : JStr)
    (h : ∀ c, isUpperAlpha c = true → upper c = [c]) :
    (∀ c ∈ normalizeWord upper s, isUpperAlpha c = true) ∧
    normalizeWord upper (normalizeWord upper s) = normalizeWord upper s := by
  have hmem : ∀ c ∈ normalizeWord upper s, isUpperAlpha c = true := by
    intro c hc
    exact (List.mem_filter.mp hc).2
  refine ⟨hmem, ?_⟩
  have h2 : (normalizeWord upper s).flatMap upper = normalizeWord upper s :=
    flatMap_eq_self_of_fixed upper _ (fun c hc => h c (hmem c hc))
  show ((normalizeWord upper s).flatMap upper).filter isUpperAlpha = normalizeWord upper s
  rw [h2]
  exact List.filter_eq_self.mpr (fun c hc => hmem c hc)

/-- C10 witness: idempotence at the input "can't" (code points
[99,97,110,39,116]), under the ASCII fragment of the uppercase table. -/
theorem normalizeWord_alphabet_idem_witness :
    normalizeWord asciiUpper (normalizeWord asciiUpper [99, 97, 110, 39, 116]) =
      normalizeWord asciiUpper [99, 97, 110, 39, 116] :=
  (normalizeWord_alphabet_idem asciiUpper [99, 97, 110, 39, 116] (fun c hc => by
    simp only [isUpperAlpha, Bool.and_eq_true, decide_eq_true_eq] at hc
    simp only [asciiUpper]
    rw [if_neg (by simp only [Bool.and_eq_true, decide_eq_true_eq]; omega)])).2

/-! ## Validator lemmas -/

theorem checkFrom_ok_iff (prev : JStr) (ws : List JStr) :
    ∀ i, (checkFrom i prev ws = Except.ok () ↔
      List.Chain' (fun a b => ltStr a b = true) (prev :: ws)) := by
  induction ws generalizing prev with
  | nil => intro i; simp [checkFrom]
  | cons w ws ih =>
    intro i
    by_cases hw : ltStr prev w = true
    · simp [checkFrom, hw, ih w (i + 1), List.chain'_cons]
    · simp [checkFrom, hw, List.chain'_cons]

theorem checkFrom_error_spec (ws : List JStr) :
    ∀ prev i e, 1 ≤ i → checkFrom i prev ws = Except.error e →
      ltStr e.prev e.cur = false ∧ i - 1 ≤ e.idx ∧
      (prev :: ws)[e.idx - (i - 1)]? = some e.prev ∧
      (prev :: ws)[e.idx - (i - 1) + 1]? = some e.cur := by
  induction ws with
  | nil => intro prev i e _ h; simp [checkFrom] at h
  | cons w ws ih =>
    intro prev i e hi h
    rw [checkFrom] at h
    by_cases hw : ltStr prev w = true
    · rw [if_pos hw] at h
      obtain ⟨h1, h2, h3, h4⟩ := ih w (i + 1) e (by omega) h
      refine ⟨h1, by omega, ?_, ?_⟩
      · have hk : e.idx - (i - 1) = (e.idx - i) + 1 := by omega
        rw [hk]
        simpa using h3
      · have hk : e.idx - (i - 1) + 1 = ((e.idx - i) + 1) + 1 := by omega
        rw [hk]
        simpa using h4
    · rw [if_neg hw] at h
      have he : e = ⟨i - 1, prev, w⟩ := by
        cases h
        rfl
      subst he
      refine ⟨by simpa using hw, Nat.le_refl _, ?_, ?_⟩ <;> simp

/-! ## Claims about the validator -/

/-- C6: the validator accepts exactly the sequences whose adjacent pairs are
strictly increasing under JS lexicographic string order, and on a violation
the raised error carries the offending index and the two adjacent values
(`words[idx] = prev`, `words[idx+1] = cur`, with `prev >= cur`). -/
theorem assertSortedUnique_spec (ws : List JStr) :
    (assertSortedUnique ws = Except.ok () ↔ StrictSorted ws) ∧
    (∀ e, assertSortedUnique ws = Except.error e →
      ws[e.idx]? = some e.prev ∧ ws[e.idx + 1]? = some e.cur ∧
      ltStr e.prev e.cur = false) := by
  cases ws with
  | nil =>
    exact ⟨by simp [assertSortedUnique, StrictSorted], fun e h => by
      simp [assertSortedUnique] at h⟩
  | cons w ws =>
    constructor
    · exact checkFrom_ok_iff w ws 1
    · intro e h
      obtain ⟨h1, _, h3, h4⟩ := checkFrom_error_spec ws w 1 e (Nat.le_refl 1) h
      simp only [Nat.sub_self, Nat.sub_zero] at h3 h4
      exact ⟨h3, h4, h1⟩

/-- C6 witness: on the out-of-order list ["B","A"] (code points 66, 65) the
validator reports index 0 with the two adjacent values. -/
theorem assertSortedUnique_spec_witness :
    ([[66], [65]] : List JStr)[(0 : Nat)]? = some [66] ∧
    ([[66], [65]] : List JStr)[(0 : Nat) + 1]? = some [65] ∧
    ltStr [66] [65] = false :=
  (assertSortedUnique_spec [[66], [65]]).2 ⟨0, [66], [65]⟩ rfl

/-- C4 (amended): the validator performs no alphabet check: it accepts every
adjacently strictly increasing sequence, including sequences whose elements
use characters outside A–Z. -/
theorem assertSortedUnique_ignores_alphabet (ws : List JStr) (h : StrictSorted ws) :
    assertSortedUnique ws = Except.ok () := by
  cases ws with
  | nil => rfl
  | cons w ws => exact (checkFrom_ok_iff w ws 1).mpr h

/-- C4 witness: the sorted list ["0","01"] (code points 48, 49 — digits, not
in A–Z) is accepted. -/
theorem assertSortedUnique_ignores_alphabet_witness :
    isUpperAlpha 48 = false ∧ assertSortedUnique [[48], [48, 49]] = Except.ok () :=
  ⟨by decide, assertSortedUnique_ignores_alphabet [[48], [48, 49]] (by
    simp [StrictSorted, List.chain'_cons]
    decide)⟩

/-- C4 counterexample: the one-element list ["0"] contains a string using
the character '0' (code point 48), which is outside A–Z, yet validation
succeeds instead of failing with a ValidationError as the claim states. -/
theorem assertSortedUnique_nonalpha_cex :
    isUpperAlpha 48 = false ∧ assertSortedUnique [[48]] = Except.ok () :=
  ⟨by decide, rfl⟩

/-! ## Reduction lemmas for `loadDictionary` on a fresh state -/

theorem loadDictionary_fresh_ok (env : LoadEnv) (u : String) (t : TrieLike) (n : Nat)
    (hb : loadBody env u = (Except.ok t, n)) :
    loadDictionary env u { trie := none, loadPromise := none } =
      (⟨LoadOutcome.completed (Except.ok ()), n⟩,
        { trie := some t, loadPromise := none }) := by
  unfold loadDictionary
  rw [hb]

theorem loadDictionary_fresh_error (env : LoadEnv) (u : String) (e : DictError) (n : Nat)
    (hb : loadBody env u = (Except.error e, n)) :
    loadDictionary env u { trie := none, loadPromise := none } =
      (⟨LoadOutcome.completed (Except.error e), n⟩,
        { trie := none, loadPromise := none }) := by
  unfold loadDictionary
  rw [hb]

/-! ## Claims about loading -/

/-- C7: when the load body fails at any of its three failure points (meta
fetch not ok, artifact fetch not ok, constructor unresolved), the error is
surfaced to the caller and the loading state is reset: the trie stays null
and the in-flight marker is cleared, so a later call starts fresh. -/
theorem loadDictionary_failure_resets (env : LoadEnv) (u : String) (st : DictState)
    (h1 : st.trie = none) (h2 : st.loadPromise = none)
    (hfail : env.metaOk = false ∨ env.dawgOk = false ∨ env.ctorResolved = false) :
    (∃ e, (loadDictionary env u st).1.outcome = LoadOutcome.completed (Except.error e)) ∧
    (loadDictionary env u st).2 = { trie := none, loadPromise := none } := by
  have hbody : ∃ e n, loadBody env u = (Except.error e, n) := by
    cases hm : env.metaOk with
    | false => exact ⟨DictError.metaFetchFailed u env.metaStatus, 1, by simp [loadBody, hm]⟩
    | true =>
      cases hd : env.dawgOk with
      | false =>
        exact ⟨DictError.dawgFetchFailed
          (resolveAssetUrl env.urlJoin env.windowPresent u (env.metaDawgFile.getD "dict.dawg"))
          env.dawgStatus, 2, by simp [loadBody, hm, hd]⟩
      | true =>
        cases hc : env.ctorResolved with
        | false => exact ⟨DictError.ctorUnresolved, 2, by simp [loadBody, hm, hd, hc]⟩
        | true => simp [hm, hd, hc] at hfail
  obtain ⟨e, n, hb⟩ := hbody
  rcases st with ⟨tr, lp⟩
  simp only at h1 h2
  subst h1
  subst h2
  rw [loadDictionary_fresh_error env u e n hb]
  exact ⟨⟨e, rfl⟩, rfl⟩

/-- C7 witness: with a metadata fetch failing with HTTP 500 on the fresh
state, the call surfaces the metadata-fetch error and leaves both module
variables null. -/
theorem loadDictionary_failure_resets_witness :
    (loadDictionary envFailMeta "/dict.meta.json" st0).1.outcome =
      LoadOutcome.completed
        (Except.error (DictError.metaFetchFailed "/dict.meta.json" 500)) ∧
    (loadDictionary envFailMeta "/dict.meta.json" st0).2 =
      { trie := none, loadPromise := none } :=
  ⟨rfl, (loadDictionary_failure_resets envFailMeta "/dict.meta.json" st0 rfl rfl
    (Or.inl rfl)).2⟩

/-- C8: loading is single-flight and idempotent: (a) once loaded, every call
returns immediately with no fetches and an unchanged state; (b) while a load
is in flight, a call returns the very same pending promise, with no fetches
and an unchanged state; (c) after a call on a fresh state completes
successfully, every subsequent call (with any environment) is a no-op that
performs no fetches. -/
theorem loadDictionary_single_flight (env : LoadEnv) (u : String) (st : DictState) :
    (∀ t, st.trie = some t →
      loadDictionary env u st = (⟨LoadOutcome.alreadyLoaded, 0⟩, st)) ∧
    (∀ p, st.trie = none → st.loadPromise = some p →
      loadDictionary env u st = (⟨LoadOutcome.joined p, 0⟩, st)) ∧
    (∀ st2 c, st.trie = none → st.loadPromise = none →
      loadDictionary env u st = (c, st2) →
      c.outcome = LoadOutcome.completed (Except.ok ()) →
      ∀ env2 u2, loadDictionary env2 u2 st2 = (⟨LoadOutcome.alreadyLoaded, 0⟩, st2)) := by
  rcases st with ⟨tr, lp⟩
  refine ⟨?_, ?_, ?_⟩
  · intro t ht
    simp only at ht
    subst ht
    rfl
  · intro p ht hp
    simp only at ht hp
    subst ht
    subst hp
    rfl
  · intro st2 c ht hp hcall hok env2 u2
    simp only at ht hp
    subst ht
    subst hp
    cases hb : loadBody env u with
    | mk r n =>
      cases r with
      | ok t =>
        rw [loadDictionary_fresh_ok env u t n hb] at hcall
        have hst2 : st2 = { trie := some t, loadPromise := none } :=
          (congrArg Prod.snd hcall).symm
        subst hst2
        rfl
      | error e =>
        rw [loadDictionary_fresh_error env u e n hb] at hcall
        have hc : c = ⟨LoadOutcome.completed (Except.error e), n⟩ :=
          (congrArg Prod.fst hcall).symm
        rw [hc] at hok
        simp at hok

/-- C8 witness: on a loaded state the call is an immediate no-op with zero
fetches, and on a state with promise 7 in flight the call returns promise 7
with zero fetches. -/
theorem loadDictionary_single_flight_witness :
    loadDictionary envOk "/dict.meta.json" stW = (⟨LoadOutcome.alreadyLoaded, 0⟩, stW) ∧
    loadDictionary envOk "/dict.meta.json" { trie := none, loadPromise := some 7 } =
      (⟨LoadOutcome.joined 7, 0⟩, { trie := none, loadPromise := some 7 }) :=
  ⟨(loadDictionary_single_flight envOk "/dict.meta.json" stW).1 trieW rfl,
   (loadDictionary_single_flight envOk "/dict.meta.json"
     { trie := none, loadPromise := some 7 }).2.1 7 rfl rfl⟩

end WordlistDawg
